import Mathlib

/-!
Verification development for the benchmark-history and regression-detection
subsystem of the java_serialization_frameworks repository.

The embedding below follows src/benchmark_history_tracker.py (the
BenchmarkHistoryTracker class) and the JMH result conversion in
src/run_complete_benchmark_with_reports.py (parse_jmh_results).

Modelling conventions:
- Python floats are modelled as rationals.
- A JSON value that may be absent is an Option; `dict.get(k, d)` becomes
  `Option.getD`.
- SQLite NULL columns are `Option` fields; the Python expression
  `row[col] > 0` raises a TypeError when the column is NULL (None), which is
  modelled by the `PyErr.typeError` error value.
- The sqlite3 connection runs the inserts of one `record` call inside a
  transaction; `commit` publishes the pending state, and closing the
  connection without a commit discards the pending state. This is modelled
  by the `Conn` structure holding a committed and a pending database.
- Human-readable alert `message` strings and console printing are
  presentation only and are not modelled.
-/

/-- Python runtime error raised during regression detection: comparing
None with an int (`row[col] > 0` on a NULL column) raises TypeError. -/
inductive PyErr where
  | typeError
deriving DecidableEq

/-! ## Input document model (the parsed JSON fed to record_benchmark_run) -/

/-- One operation entry of a jmh_results framework dict
(the roundtrip or serialize operation),
read in benchmark_history_tracker.py lines 163-175. -/
structure MicroOp where
  latency_ms : Option ℚ
  throughput_ops_per_sec : Option ℚ
deriving DecidableEq

def emptyMicroOp : MicroOp := ⟨none, none⟩

/-- One framework entry of the `jmh_results` top-level dict: only the
`roundtrip` and `serialize` operations are ever read (line 164). -/
structure MicroEntry where
  roundtrip : Option MicroOp
  serialize : Option MicroOp
deriving DecidableEq

/-- The `percentiles` block of a scenario summary (lines 186, 198-200). -/
structure Percentiles where
  p50_ms : Option ℚ
  p95_ms : Option ℚ
  p99_ms : Option ℚ
deriving DecidableEq

def emptyPercentiles : Percentiles := ⟨none, none, none⟩

/-- The per-framework `summary` block of an integration entry
(lines 180, 196-197) plus `successful_tests` read at line 122. -/
structure IntegrationSummary where
  avg_response_time_ms : Option ℚ
  overall_success_rate : Option ℚ
  successful_tests : Option ℚ
deriving DecidableEq

def emptyIntegrationSummary : IntegrationSummary := ⟨none, none, none⟩

/-- The `summary` block nested inside a scenario (line 185). -/
structure ScenSummary where
  percentiles : Option Percentiles
deriving DecidableEq

def emptyScenSummary : ScenSummary := ⟨none⟩

/-- One scenario block (line 184). -/
structure Scenario where
  summary : Option ScenSummary
deriving DecidableEq

def emptyScenario : Scenario := ⟨none⟩

/-- The `scenarios` dict of an integration entry: only the `MEDIUM`
scenario is ever read (line 184). -/
structure ScenariosDict where
  MEDIUM : Option Scenario
deriving DecidableEq

def emptyScenariosDict : ScenariosDict := ⟨none⟩

/-- One framework entry of the `results` top-level dict (lines 179-201). -/
structure IntegrationEntry where
  name : Option String
  summary : Option IntegrationSummary
  scenarios : Option ScenariosDict
deriving DecidableEq

/-- The `metadata` top-level dict (lines 110, 114-115). -/
structure Metadata where
  timestamp : Option String
  duration_seconds : Option ℚ
deriving DecidableEq

def emptyMetadata : Metadata := ⟨none, none⟩

/-- A parsed benchmark results document, restricted to the top-level keys
the tracker reads. An `Option` field being `none` models the key being
absent from the JSON object; extra keys (such as `foo` in an
unknown-shaped document) are invisible to the tracker and therefore not
modelled. The `integration_results` key is only tested for presence
(line 148), never read, hence a Bool. -/
structure RawDoc where
  metadata : Option Metadata
  jmh_results : Option (List (String × MicroEntry))
  integration_results_present : Bool
  results : Option (List (String × IntegrationEntry))
deriving DecidableEq

/-! ## Database rows (schema of init_database, lines 38-89) -/

/-- A row of the `benchmark_runs` table. -/
structure RunRow where
  id : Nat
  timestamp : String
  run_type : String
  total_frameworks : Nat
  successful_frameworks : Nat
  duration_seconds : ℚ
deriving DecidableEq

/-- A row of the `framework_results` table. Columns that an INSERT does
not mention are NULL, i.e. `none`. -/
structure ResultRow where
  run_id : Nat
  framework : String
  result_type : String
  latency_ms : Option ℚ
  throughput_ops_sec : Option ℚ
  success_rate : Option ℚ
  serialized_size_bytes : Option ℚ
  compression_ratio : Option ℚ
  p50_ms : Option ℚ
  p95_ms : Option ℚ
  p99_ms : Option ℚ
deriving DecidableEq

/-- A row of the `performance_alerts` table (the free-text `message`
column is presentation only and not modelled). -/
structure AlertRow where
  timestamp : String
  framework : String
  alert_type : String
  severity : String
  metric : String
  old_value : ℚ
  new_value : ℚ
  change_percent : ℚ
deriving DecidableEq

/-- The three tables of the SQLite database, each as an insertion-ordered
row list (SELECTs without ORDER BY scan in rowid, i.e. insertion, order). -/
structure DB where
  runs : List RunRow
  results : List ResultRow
  alerts : List AlertRow
deriving DecidableEq

def emptyDB : DB := ⟨[], [], []⟩

/-- A sqlite3 connection: `committed` is the durable state, `pending` the
state seen by this connection inside the current transaction. `execute`
mutates `pending`; `commit` copies `pending` over `committed`; closing the
connection without a commit discards `pending`. -/
structure Conn where
  committed : DB
  pending : DB
deriving DecidableEq

def emptyConn : Conn := ⟨emptyDB, emptyDB⟩

/-- Closing the connection: any uncommitted transaction is rolled back, so
the durable database is the committed state (main, line 541). -/
def conn_close (conn : Conn) : DB := conn.committed

/-! ## Ingestion (_determine_run_type and _record_framework_results) -/

/-- Lines 146-154: classify the run type by presence of top-level keys.
Note that the first branch tests the `integration_results` key while the
third branch tests the `results` key. -/
def determine_run_type (d : RawDoc) : String :=
  if d.jmh_results.isSome && d.integration_results_present then "complete"
  else if d.jmh_results.isSome then "jmh"
  else if d.results.isSome then "integration"
  else "unknown"

/-- Lines 162-175: the framework_results row inserted for one
`jmh_results` framework entry. The source reads the roundtrip operation
and falls back to the serialize operation, a fixed
roundtrip-then-serialize priority; missing metric values default to 0. -/
def jmh_row (run_id : Nat) (framework : String) (metrics : MicroEntry) : ResultRow :=
  let roundtrip := metrics.roundtrip.getD (metrics.serialize.getD emptyMicroOp)
  { run_id := run_id
    framework := framework
    result_type := "jmh"
    latency_ms := some (roundtrip.latency_ms.getD 0)
    throughput_ops_sec := some (roundtrip.throughput_ops_per_sec.getD 0)
    success_rate := none
    serialized_size_bytes := none
    compression_ratio := none
    p50_ms := none
    p95_ms := none
    p99_ms := none }

/-- Lines 179-201: the framework_results row inserted for one `results`
(integration) framework entry. The MEDIUM scenario supplies the
percentiles; the `throughput_ops_sec` column is not part of this INSERT
and is therefore NULL. -/
def integration_row (run_id : Nat) (framework_key : String)
    (fd : IntegrationEntry) : ResultRow :=
  let summary := fd.summary.getD emptyIntegrationSummary
  let scenarios := fd.scenarios.getD emptyScenariosDict
  let medium_scenario := scenarios.MEDIUM.getD emptyScenario
  let scenario_summary := medium_scenario.summary.getD emptyScenSummary
  let percentiles := scenario_summary.percentiles.getD emptyPercentiles
  { run_id := run_id
    framework := fd.name.getD framework_key
    result_type := "integration"
    latency_ms := some (summary.avg_response_time_ms.getD 0)
    throughput_ops_sec := none
    success_rate := some (summary.overall_success_rate.getD 0)
    serialized_size_bytes := none
    compression_ratio := none
    p50_ms := some (percentiles.p50_ms.getD 0)
    p95_ms := some (percentiles.p95_ms.getD 0)
    p99_ms := some (percentiles.p99_ms.getD 0) }

/-- Lines 156-201: all framework_results rows inserted for one document,
jmh rows first, then integration rows, in document order. -/
def record_framework_results (run_id : Nat) (d : RawDoc) : List ResultRow :=
  (d.jmh_results.getD []).map (fun p => jmh_row run_id p.1 p.2) ++
    (d.results.getD []).map (fun p => integration_row run_id p.1 p.2)

/-- Lines 120-123: count of framework entries whose
`summary.successful_tests` (default 0) is positive. -/
def successful_count (entries : List (String × IntegrationEntry)) : Nat :=
  (entries.filter (fun p =>
    decide (0 < ((p.2.summary.getD emptyIntegrationSummary).successful_tests.getD 0)))).length

/-- The AUTOINCREMENT primary key assigned to the next inserted
benchmark_runs row (strictly larger than every existing id; with no
deletes this is max + 1), also the value of `cursor.lastrowid`. -/
def next_run_id (db : DB) : Nat := (db.runs.map (fun r => r.id)).foldr max 0 + 1

/-! ## Regression detection (_detect_regressions, lines 203-292) -/

/-- The result of `ORDER BY id DESC LIMIT 1` over a bag of ids: the
largest id, or none when the bag is empty. -/
def sql_max_id : List Nat → Option Nat
  | [] => none
  | x :: xs =>
    match sql_max_id xs with
    | none => some x
    | some m => some (max x m)

/-- Lines 214-227: the previous comparable run. The SQL selects the
largest id strictly below `run_id` whose run_type is IN the set of
run_types of rows with id = `run_id`. -/
def find_previous_comparable_run (runs : List RunRow) (run_id : Nat) : Option Nat :=
  let kinds := (runs.filter (fun r => decide (r.id = run_id))).map (fun r => r.run_type)
  let candidates :=
    runs.filter (fun r => decide (r.id < run_id) && decide (r.run_type ∈ kinds))
  sql_max_id (candidates.map (fun r => r.id))

/-- Lines 249-263: the alert rows inserted by the latency branch, given
that both values passed the positivity guard. -/
def latency_alert (now framework : String) (prev cur : ℚ) : List AlertRow :=
  let change_percent := (cur - prev) / prev * 100
  if change_percent > 10 then
    [{ timestamp := now, framework := framework, alert_type := "regression"
       severity := if change_percent > 25 then "critical" else "warning"
       metric := "latency_ms", old_value := prev, new_value := cur
       change_percent := change_percent }]
  else if change_percent < -10 then
    [{ timestamp := now, framework := framework, alert_type := "improvement"
       severity := "info", metric := "latency_ms", old_value := prev
       new_value := cur, change_percent := change_percent }]
  else []

/-- Lines 271-277: the alert rows inserted by the throughput branch (note
the source has no improvement branch here, and the metric string is
"throughput"). -/
def throughput_alert (now framework : String) (prev cur : ℚ) : List AlertRow :=
  let change_percent := (cur - prev) / prev * 100
  if change_percent < -10 then
    [{ timestamp := now, framework := framework, alert_type := "regression"
       severity := if change_percent < -25 then "critical" else "warning"
       metric := "throughput", old_value := prev, new_value := cur
       change_percent := change_percent }]
  else []

/-- Lines 266-277: the throughput check, guarded by the condition that the
current and then the previous throughput column are both positive.
`acc` holds the alerts already inserted by the latency check. Evaluating
`>` on a NULL (None) column raises a TypeError; the short-circuiting `and`
evaluates the current side first. -/
def compare_throughput (now : String) (cur prev : ResultRow)
    (acc : List AlertRow) : List AlertRow × Option PyErr :=
  match cur.throughput_ops_sec with
  | none => (acc, some PyErr.typeError)
  | some ct =>
    if 0 < ct then
      match prev.throughput_ops_sec with
      | none => (acc, some PyErr.typeError)
      | some pt =>
        (acc ++ (if 0 < pt then throughput_alert now cur.framework pt ct else []), none)
    else (acc, none)

/-- Lines 244-277: both metric checks for one (current, previous) row
pair, in source order: latency first, then throughput. Returns the alerts
inserted before control left this pair, and the error if one was raised. -/
def compare_framework (now : String) (cur prev : ResultRow) :
    List AlertRow × Option PyErr :=
  match cur.latency_ms with
  | none => ([], some PyErr.typeError)
  | some cl =>
    if 0 < cl then
      match prev.latency_ms with
      | none => ([], some PyErr.typeError)
      | some pl =>
        compare_throughput now cur prev
          (if 0 < pl then latency_alert now cur.framework pl cl else [])
    else compare_throughput now cur prev []

/-- Lines 230-277: the per-framework loop. For each current row, fetch the
first previous-run row with the same framework and result_type (fetchone
in rowid order); skip when absent; an exception aborts the loop,
keeping the alerts inserted so far. -/
def detect_loop (now : String) (all_results : List ResultRow) (prev_run_id : Nat) :
    List ResultRow → List AlertRow × Option PyErr
  | [] => ([], none)
  | cur :: rest =>
    match all_results.find? (fun r =>
        decide (r.run_id = prev_run_id) && decide (r.framework = cur.framework) &&
          decide (r.result_type = cur.result_type)) with
    | none => detect_loop now all_results prev_run_id rest
    | some prev =>
      match compare_framework now cur prev with
      | (emitted, some e) => (emitted, some e)
      | (emitted, none) =>
        match detect_loop now all_results prev_run_id rest with
        | (more, e2) => (emitted ++ more, e2)

/-- Lines 203-277: _detect_regressions. Returns the alert rows inserted
into the (pending) performance_alerts table and the exception, if any,
that escaped. -/
def detect_regressions (now : String) (db : DB) (run_id : Nat) :
    List AlertRow × Option PyErr :=
  let current_results := db.results.filter (fun r => decide (r.run_id = run_id))
  match find_previous_comparable_run db.runs run_id with
  | none => ([], none)
  | some prev_run_id => detect_loop now db.results prev_run_id current_results

/-! ## record_benchmark_run (lines 98-144) -/

/-- Lines 98-144: record one parsed document. All inserts go to the
pending state of the connection; `self.conn.commit()` (line 141) runs only
after `_detect_regressions` returns normally, so an exception escaping
detection leaves the transaction uncommitted and propagates as an error.
`now` stands for `datetime.now().isoformat()`. -/
def record_benchmark_run (now : String) (conn : Conn) (d : RawDoc) :
    Conn × Except PyErr Nat :=
  let db := conn.pending
  let metadata := d.metadata.getD emptyMetadata
  let run_type := determine_run_type d
  let timestamp := metadata.timestamp.getD now
  let duration := metadata.duration_seconds.getD 0
  let results := d.results.getD []
  let total_frameworks := results.length
  let successful_frameworks := successful_count results
  let run_id := next_run_id db
  let run_row : RunRow :=
    { id := run_id, timestamp := timestamp, run_type := run_type
      total_frameworks := total_frameworks
      successful_frameworks := successful_frameworks
      duration_seconds := duration }
  let db1 : DB :=
    { db with
      runs := db.runs ++ [run_row]
      results := db.results ++ record_framework_results run_id d }
  match detect_regressions now db1 run_id with
  | (alerts, none) =>
    let db2 : DB := { db1 with alerts := db1.alerts ++ alerts }
    (⟨db2, db2⟩, Except.ok run_id)
  | (alerts, some e) =>
    let db2 : DB := { db1 with alerts := db1.alerts ++ alerts }
    ({ conn with pending := db2 }, Except.error e)

/-! ## JMH score conversion (run_complete_benchmark_with_reports.py 169-189) -/

/-- The `primaryMetric` block of one raw JMH benchmark entry. -/
structure PrimaryMetric where
  score : Option ℚ
  scoreError : Option ℚ
  scoreUnit : Option String
deriving DecidableEq

/-- The parsed per-operation metrics dict built at lines 182-189. -/
structure JmhOpMetrics where
  throughput_ops_per_sec : ℚ
  latency_ms : ℚ
  latency_error_ms : ℚ
  unit : String
  raw_score : ℚ
  raw_error : ℚ
deriving DecidableEq

/-- Lines 169-189 of run_complete_benchmark_with_reports.py: convert a
throughput score (unit "ops/s", score > 0) to latency via 1000 / score;
otherwise the raw score is passed through as the latency. -/
def parse_primary_metric (pm : PrimaryMetric) : JmhOpMetrics :=
  let score := pm.score.getD 0
  let score_error := pm.scoreError.getD 0
  let unit := pm.scoreUnit.getD "ops/s"
  let pair :=
    if unit = "ops/s" ∧ 0 < score then
      (1000 / score, if 0 < score then 1000 * score_error / (score * score) else 0)
    else (score, score_error)
  { throughput_ops_per_sec :=
      if unit = "ops/s" then score else if 0 < score then 1000 / score else 0
    latency_ms := pair.1
    latency_error_ms := pair.2
    unit := unit
    raw_score := score
    raw_error := score_error }

/-! ## Trend analysis (analyze_trends, lines 395-452) -/

/-- Lexicographic character-list comparison: SQLite compares TEXT columns
with the binary collation, i.e. bytewise, which on the ASCII ISO-8601
timestamps used here is lexicographic order. -/
def charListLe : List Char → List Char → Bool
  | [], _ => true
  | _ :: _, [] => false
  | a :: as, b :: bs => if a < b then true else if b < a then false else charListLe as bs

/-- String comparison `a <= b` as performed by SQLite on TEXT. -/
def strLe (a b : String) : Bool := charListLe a.data b.data

/-- One row of the trend SELECT (line 402): only the run timestamp and the
two metric columns are selected — the result_type column is not part of
the query at all. -/
structure TrendRow where
  timestamp : String
  latency_ms : Option ℚ
  throughput_ops_sec : Option ℚ
deriving DecidableEq

/-- Lines 401-407: the JOIN of framework_results with benchmark_runs,
filtered by framework name and `br.timestamp >= cutoff` only. -/
def trend_select (db : DB) (framework : String) (cutoff : String) : List TrendRow :=
  db.results.filterMap (fun fr =>
    if decide (fr.framework = framework) then
      match db.runs.find? (fun br => decide (br.id = fr.run_id)) with
      | some br =>
        if strLe cutoff br.timestamp then
          some ⟨br.timestamp, fr.latency_ms, fr.throughput_ops_sec⟩
        else none
      | none => none
    else none)

/-- Stable insertion of a row into a timestamp-sorted list (rows with
equal timestamps keep their scan order, matching the order in which the
SQLite query scans them). -/
def insert_by_timestamp (x : TrendRow) : List TrendRow → List TrendRow
  | [] => [x]
  | y :: ys =>
    if strLe x.timestamp y.timestamp then x :: y :: ys
    else y :: insert_by_timestamp x ys

/-- ORDER BY br.timestamp (line 407). -/
def sort_by_timestamp : List TrendRow → List TrendRow
  | [] => []
  | x :: xs => insert_by_timestamp x (sort_by_timestamp xs)

/-- The ordered row series the trend loop iterates over. -/
def trend_rows (db : DB) (framework : String) (cutoff : String) : List TrendRow :=
  sort_by_timestamp (trend_select db framework cutoff)

/-- Lines 416-421: build the value series; Python truthiness keeps only
values that are neither NULL nor zero. -/
def trend_values (metric : String) (rows : List TrendRow) : List ℚ :=
  rows.filterMap (fun r =>
    if metric = "latency_ms" then
      match r.latency_ms with
      | some v => if v = 0 then none else some v
      | none => none
    else if metric = "throughput" then
      match r.throughput_ops_sec with
      | some v => if v = 0 then none else some v
      | none => none
    else none)

/-- Line 441: `sum(values[:len(values)//2]) / (len(values)//2)`. -/
def trend_first_half_avg (values : List ℚ) : ℚ :=
  (values.take (values.length / 2)).sum / ((values.length / 2 : ℕ) : ℚ)

/-- Line 442: `sum(values[len(values)//2:]) / (len(values) - len(values)//2)`. -/
def trend_second_half_avg (values : List ℚ) : ℚ :=
  (values.drop (values.length / 2)).sum /
    ((values.length - values.length / 2 : ℕ) : ℚ)

/-- Line 443: the trend change percentage. -/
def trend_change (values : List ℚ) : ℚ :=
  (trend_second_half_avg values - trend_first_half_avg values) /
    trend_first_half_avg values * 100

/-- Lines 445-450: the classification word of the printed trend line
(arrow glyphs and the formatted percentage are presentation only). -/
def trend_label (metric : String) (change : ℚ) : String :=
  if |change| < 5 then "Stable"
  else if 0 < change then
    (if metric = "latency_ms" then "Worsening" else "Improving")
  else
    (if metric = "latency_ms" then "Improving" else "Worsening")

/-- Lines 440-452: a trend direction is reported only for series of at
least two values. -/
def trend_direction (metric : String) (values : List ℚ) : Option String :=
  if 2 ≤ values.length then some (trend_label metric (trend_change values))
  else none

/-- Arithmetic mean, as the spec words it ("computes each half's mean"). -/
def mean (l : List ℚ) : ℚ := l.sum / (l.length : ℚ)

/-! ## Concrete sample inputs used by the claim theorems -/

/-- An integration-shaped document with a single framework jackson whose
MEDIUM latency summary is `v` (the scenario-walkthrough shape of the
spec). -/
def intDoc (v : ℚ) : RawDoc :=
  { metadata := none
    jmh_results := none
    integration_results_present := false
    results := some [("jackson",
      { name := none
        summary := some
          { avg_response_time_ms := some v
            overall_success_rate := none
            successful_tests := some 1 }
        scenarios := none })] }

/-- Run A of spec scenario 1: jackson latency 10.0. -/
def docA : RawDoc := intDoc 10

/-- Run B of spec scenario 1: jackson latency 13.0. -/
def docB : RawDoc := intDoc 13

/-- An unknown-shaped document: none of the recognised top-level keys. -/
def docUnknown : RawDoc :=
  { metadata := none
    jmh_results := none
    integration_results_present := false
    results := none }

/-- A document carrying both microbenchmark data (under jmh_results) and
integration data (under results), but no integration_results key. -/
def docBoth : RawDoc :=
  { metadata := none
    jmh_results := some [("Jackson",
      { roundtrip := some { latency_ms := some 1, throughput_ops_per_sec := some 100 }
        serialize := none })]
    integration_results_present := false
    results := some [("jackson",
      { name := none
        summary := some
          { avg_response_time_ms := some 2
            overall_success_rate := none
            successful_tests := some 1 }
        scenarios := none })] }

/-- A framework_results row as the jmh INSERT produces it, with chosen
latency and throughput column values. -/
def mk_jmh_result_row (run_id : Nat) (framework : String)
    (lat thr : Option ℚ) : ResultRow :=
  { run_id := run_id, framework := framework, result_type := "jmh"
    latency_ms := lat, throughput_ops_sec := thr, success_rate := none
    serialized_size_bytes := none, compression_ratio := none
    p50_ms := none, p95_ms := none, p99_ms := none }

/-- Previous-run row for the threshold boundary checks: latency 10. -/
def prev_boundary : ResultRow := mk_jmh_result_row 1 "jackson" (some 10) (some 0)

/-- Current-run row with latency 11: change_percent is exactly 10. -/
def cur_boundary_10 : ResultRow := mk_jmh_result_row 2 "jackson" (some 11) (some 0)

/-- Current-run row with latency 11.00001: change_percent is 10.0001. -/
def cur_boundary_10001 : ResultRow :=
  mk_jmh_result_row 2 "jackson" (some (1100001 / 100000)) (some 0)

/-- C2 witness rows: latency 10 then 13 (a 30 percent regression). -/
def w2_prev : ResultRow := mk_jmh_result_row 1 "jackson" (some 10) (some 0)

def w2_cur : ResultRow := mk_jmh_result_row 2 "jackson" (some 13) (some 0)

/-- C3 counterexample rows: throughput 1000 then 1200 (a 20 percent
increase, which the claim calls an improvement). -/
def c3_prev : ResultRow := mk_jmh_result_row 1 "jackson" (some 5) (some 1000)

def c3_cur : ResultRow := mk_jmh_result_row 2 "jackson" (some 5) (some 1200)

/-- C3 witness rows: throughput 1000 then 700 (spec scenario 4). -/
def w3_prev : ResultRow := mk_jmh_result_row 1 "jackson" (some 5) (some 1000)

def w3_cur : ResultRow := mk_jmh_result_row 2 "jackson" (some 5) (some 700)

/-- C5 witness rows: current latency measured as 0, current throughput
column NULL. -/
def w5_prev : ResultRow := mk_jmh_result_row 1 "jackson" (some 10) (some 5)

def w5_cur : ResultRow :=
  { run_id := 2, framework := "jackson", result_type := "jmh"
    latency_ms := some 0, throughput_ops_sec := none, success_rate := none
    serialized_size_bytes := none, compression_ratio := none
    p50_ms := none, p95_ms := none, p99_ms := none }

/-- The connection state after recording run A on a fresh database. -/
def conn_A : Conn := (record_benchmark_run "t1" emptyConn docA).1

/-- Recording run B on top of run A. -/
def rec_B : Conn × Except PyErr Nat := record_benchmark_run "t2" conn_A docB

/-- The run_kind sequence [integration, microbenchmark, integration] with
run ids 1, 2, 3 (microbenchmark runs are stored with run_type jmh). -/
def sampleRuns : List RunRow :=
  [{ id := 1, timestamp := "2024-01-01", run_type := "integration"
     total_frameworks := 0, successful_frameworks := 0, duration_seconds := 0 },
   { id := 2, timestamp := "2024-01-02", run_type := "jmh"
     total_frameworks := 0, successful_frameworks := 0, duration_seconds := 0 },
   { id := 3, timestamp := "2024-01-03", run_type := "integration"
     total_frameworks := 0, successful_frameworks := 0, duration_seconds := 0 }]

/-- The third sample run (run id 3, integration). -/
def sampleRun3 : RunRow :=
  { id := 3, timestamp := "2024-01-03", run_type := "integration"
    total_frameworks := 0, successful_frameworks := 0, duration_seconds := 0 }

/-- A database holding one run with both a microbenchmark and an
integration measurement of the same framework jackson. -/
def mixedDb : DB :=
  { runs := [{ id := 1, timestamp := "t1", run_type := "complete"
               total_frameworks := 1, successful_frameworks := 1
               duration_seconds := 0 }]
    results :=
      [mk_jmh_result_row 1 "jackson" (some 5) (some 0),
       { run_id := 1, framework := "jackson", result_type := "integration"
         latency_ms := some 7, throughput_ops_sec := none
         success_rate := some 0, serialized_size_bytes := none
         compression_ratio := none, p50_ms := some 0, p95_ms := some 0
         p99_ms := some 0 }]
    alerts := [] }

/-- C7 witness inputs. -/
def w7_entry : MicroEntry :=
  { roundtrip := some { latency_ms := some 3, throughput_ops_per_sec := some 4 }
    serialize := some { latency_ms := some 9, throughput_ops_per_sec := some 9 } }

def w7_pm : PrimaryMetric :=
  { score := some 200, scoreError := some 0, scoreUnit := some "ops/s" }

/-! ## Helper lemmas -/

theorem sql_max_id_eq_none {l : List Nat} : sql_max_id l = none ↔ l = [] := by
  cases l with
  | nil => simp [sql_max_id]
  | cons x xs =>
    simp only [sql_max_id]
    cases h : sql_max_id xs <;> simp

theorem sql_max_id_isSome {l : List Nat} (h : l ≠ []) : ∃ m, sql_max_id l = some m := by
  cases hm : sql_max_id l with
  | none => exact absurd (sql_max_id_eq_none.mp hm) h
  | some m => exact ⟨m, rfl⟩

theorem sql_max_id_mem {l : List Nat} {m : Nat} (h : sql_max_id l = some m) : m ∈ l := by
  induction l with
  | nil => simp [sql_max_id] at h
  | cons x xs ih =>
    simp only [sql_max_id] at h
    cases hx : sql_max_id xs with
    | none =>
      rw [hx] at h
      simp only [Option.some.injEq] at h
      simp [← h]
    | some m' =>
      rw [hx] at h
      simp only [Option.some.injEq] at h
      rcases max_choice x m' with hc | hc
    
      · rw [hc] at h
        simp [← h]
      · rw [hc] at h
        exact List.mem_cons_of_mem _ (ih (h ▸ hx))

theorem sql_max_id_le {l : List Nat} {a m : Nat} (ha : a ∈ l)
    (h : sql_max_id l = some m) : a ≤ m := by
  induction l generalizing m with
  | nil => simp at ha
  | cons x xs ih =>
    simp only [sql_max_id] at h
    cases hx : sql_max_id xs with
    | none =>
      rw [hx] at h
      simp only [Option.some.injEq] at h
      have hxs : xs = [] := sql_max_id_eq_none.mp hx
      subst hxs
      simp at ha
      omega
    | some m' =>
      rw [hx] at h
      simp only [Option.some.injEq] at h
      rcases List.mem_cons.mp ha with hax | hax
      · subst hax
        exact h ▸ le_max_left a m'
      · exact h ▸ le_trans (ih hax hx) (le_max_right x m')

/-- C1 general helper: characterise find_previous_comparable_run as the
maximal strictly-smaller id of the same run_type. -/
theorem find_previous_spec (runs : List RunRow) (r : RunRow) (hr : r ∈ runs)
    (huni : ∀ a ∈ runs, a.id = r.id → a.run_type = r.run_type)
    (hex : ∃ a ∈ runs, a.id < r.id ∧ a.run_type = r.run_type) :
    ∃ m, find_previous_comparable_run runs r.id = some m ∧
      (∃ a ∈ runs, a.id = m ∧ a.run_type = r.run_type ∧ m < r.id) ∧
      (∀ a ∈ runs, a.id < r.id → a.run_type = r.run_type → a.id ≤ m) := by
  have hcand : ∀ b : RunRow,
      b ∈ runs.filter (fun x => decide (x.id < r.id) &&
        decide (x.run_type ∈
          (runs.filter (fun y => decide (y.id = r.id))).map (fun y => y.run_type))) ↔
      b ∈ runs ∧ b.id < r.id ∧ b.run_type = r.run_type := by
    intro b
    simp only [List.mem_filter, Bool.and_eq_true, decide_eq_true_eq, List.mem_map]
    constructor
    · rintro ⟨hb, hlt, c, hc, hcty⟩
      exact ⟨hb, hlt, hcty ▸ huni c hc.1 hc.2⟩
    · rintro ⟨hb, hlt, hty⟩
      exact ⟨hb, hlt, r, ⟨hr, rfl⟩, hty.symm⟩
  obtain ⟨a0, ha0, ha0lt, ha0ty⟩ := hex
  have ha0c := (hcand a0).mpr ⟨ha0, ha0lt, ha0ty⟩
  have hne : (runs.filter (fun x => decide (x.id < r.id) &&
      decide (x.run_type ∈
        (runs.filter (fun y => decide (y.id = r.id))).map (fun y => y.run_type)))).map
        (fun x => x.id) ≠ [] := by
    intro hnil
    exact (List.ne_nil_of_mem (List.mem_map_of_mem (fun x => x.id) ha0c)) hnil
  obtain ⟨m, hm⟩ := sql_max_id_isSome hne
  refine ⟨m, ?_, ?_, ?_⟩
  · simpa only [find_previous_comparable_run] using hm
  · obtain ⟨b, hb, hbid⟩ := List.mem_map.mp (sql_max_id_mem hm)
    obtain ⟨hbr, hblt, hbty⟩ := (hcand b).mp hb
    exact ⟨b, hbr, hbid, hbty, hbid ▸ hblt⟩
  · intro a ha halt haty
    exact sql_max_id_le (List.mem_map_of_mem _ ((hcand a).mpr ⟨ha, halt, haty⟩)) hm

/-- C1: findPreviousComparableRun returns the run with the largest run_id
strictly below the given run that has the same run_kind, independently of
timestamps and of which frameworks are present; in particular, for the
run_kind sequence [integration, microbenchmark, integration] with ids
1, 2, 3, the previous comparable run of run 3 is run 1, not run 2. -/
theorem C1_find_previous_comparable_run :
    (∀ (runs : List RunRow) (r : RunRow), r ∈ runs →
      (∀ a ∈ runs, a.id = r.id → a.run_type = r.run_type) →
      (∃ a ∈ runs, a.id < r.id ∧ a.run_type = r.run_type) →
      ∃ m, find_previous_comparable_run runs r.id = some m ∧
        (∃ a ∈ runs, a.id = m ∧ a.run_type = r.run_type ∧ m < r.id) ∧
        (∀ a ∈ runs, a.id < r.id → a.run_type = r.run_type → a.id ≤ m)) ∧
    find_previous_comparable_run sampleRuns 3 = some 1 ∧
    find_previous_comparable_run sampleRuns 3 ≠ some 2 := by
  refine ⟨find_previous_spec, ?_, ?_⟩ <;> decide

/-- C1 witness: the general statement applied to the concrete
[integration, microbenchmark, integration] database. -/
theorem C1_witness :
    ∃ m, find_previous_comparable_run sampleRuns sampleRun3.id = some m ∧
      (∃ a ∈ sampleRuns, a.id = m ∧ a.run_type = sampleRun3.run_type ∧
        m < sampleRun3.id) ∧
      (∀ a ∈ sampleRuns, a.id < sampleRun3.id →
        a.run_type = sampleRun3.run_type → a.id ≤ m) :=
  C1_find_previous_comparable_run.1 sampleRuns sampleRun3 (by decide) (by decide)
    (by decide)

theorem throughput_alert_metric {now fw : String} {p c : ℚ} {a : AlertRow}
    (h : a ∈ throughput_alert now fw p c) :
    a.metric = "throughput" ∧ a.alert_type = "regression" := by
  simp only [throughput_alert] at h
  split at h
  · simp only [List.mem_singleton] at h
    subst h
    exact ⟨rfl, rfl⟩
  · simp at h

theorem latency_alert_metric {now fw : String} {p c : ℚ} {a : AlertRow}
    (h : a ∈ latency_alert now fw p c) : a.metric = "latency_ms" := by
  simp only [latency_alert] at h
  split at h
  · simp only [List.mem_singleton] at h
    subst h
    rfl
  · split at h
    · simp only [List.mem_singleton] at h
      subst h
      rfl
    · simp at h

theorem latency_alert_filter_throughput (now fw : String) (p c : ℚ) :
    (latency_alert now fw p c).filter (fun a => decide (a.metric = "throughput")) = [] := by
  rw [List.filter_eq_nil_iff]
  intro a ha
  simp only [decide_eq_true_eq]
  rw [latency_alert_metric ha]
  decide

theorem throughput_alert_filter_latency (now fw : String) (p c : ℚ) :
    (throughput_alert now fw p c).filter (fun a => decide (a.metric = "latency_ms")) = [] := by
  rw [List.filter_eq_nil_iff]
  intro a ha
  simp only [decide_eq_true_eq]
  rw [(throughput_alert_metric ha).1]
  decide

theorem latency_alert_filter_self (now fw : String) (p c : ℚ) :
    (latency_alert now fw p c).filter (fun a => decide (a.metric = "latency_ms")) =
      latency_alert now fw p c := by
  rw [List.filter_eq_self]
  intro a ha
  simp only [decide_eq_true_eq]
  exact latency_alert_metric ha

theorem throughput_alert_filter_self (now fw : String) (p c : ℚ) :
    (throughput_alert now fw p c).filter (fun a => decide (a.metric = "throughput")) =
      throughput_alert now fw p c := by
  rw [List.filter_eq_self]
  intro a ha
  simp only [decide_eq_true_eq]
  exact (throughput_alert_metric ha).1

/-- The throughput check never adds or removes latency_ms alerts. -/
theorem compare_throughput_filter_latency (now : String) (cur prev : ResultRow)
    (acc : List AlertRow) :
    (compare_throughput now cur prev acc).1.filter
        (fun a => decide (a.metric = "latency_ms")) =
      acc.filter (fun a => decide (a.metric = "latency_ms")) := by
  rcases hct : cur.throughput_ops_sec with _ | ct
  · simp only [compare_throughput, hct]
  · by_cases h : 0 < ct
    · rcases hpt : prev.throughput_ops_sec with _ | pt
      · simp only [compare_throughput, hct, hpt, if_pos h]
      · by_cases h2 : 0 < pt
        · simp only [compare_throughput, hct, hpt, if_pos h, if_pos h2,
            List.filter_append, throughput_alert_filter_latency, List.append_nil]
        · simp only [compare_throughput, hct, hpt, if_pos h, if_neg h2,
            List.filter_append, List.filter_nil, List.append_nil]
    · simp only [compare_throughput, hct, if_neg h]

/-- C2: for a compared latency pair with both values positive, the
detector computes change_percent = (current - previous) / previous * 100
and classifies it — a regression alert for change_percent > 10 (critical
above 25, warning otherwise), an improvement alert with severity info for
change_percent < -10, and nothing in between; at the boundary,
change_percent exactly 10 produces no alert while 10.0001 produces a
regression alert. -/
theorem C2_latency_threshold_classification :
    (∀ (now : String) (cur prev : ResultRow) (c p : ℚ),
        cur.latency_ms = some c → prev.latency_ms = some p → 0 < c → 0 < p →
        (compare_framework now cur prev).1.filter
            (fun a => decide (a.metric = "latency_ms")) =
          (if (c - p) / p * 100 > 10 then
            [{ timestamp := now, framework := cur.framework
               alert_type := "regression"
               severity := if (c - p) / p * 100 > 25 then "critical" else "warning"
               metric := "latency_ms", old_value := p, new_value := c
               change_percent := (c - p) / p * 100 }]
          else if (c - p) / p * 100 < -10 then
            [{ timestamp := now, framework := cur.framework
               alert_type := "improvement", severity := "info"
               metric := "latency_ms", old_value := p, new_value := c
               change_percent := (c - p) / p * 100 }]
          else [])) ∧
    (compare_framework "t" cur_boundary_10 prev_boundary).1 = [] ∧
    (compare_framework "t" cur_boundary_10001 prev_boundary).1 =
      [{ timestamp := "t", framework := "jackson", alert_type := "regression"
         severity := "warning", metric := "latency_ms", old_value := 10
         new_value := 1100001 / 100000, change_percent := 100001 / 10000 }] := by
  refine ⟨?_, ?_, ?_⟩
  · intro now cur prev c p hc hp hcpos hppos
    have hred : compare_framework now cur prev =
        compare_throughput now cur prev (latency_alert now cur.framework p c) := by
      simp only [compare_framework, hc, hp, if_pos hcpos, if_pos hppos]
    rw [hred, compare_throughput_filter_latency, latency_alert_filter_self]
    simp only [latency_alert]
  · norm_num [compare_framework, compare_throughput, latency_alert,
      cur_boundary_10, prev_boundary, mk_jmh_result_row]
  · norm_num [compare_framework, compare_throughput, latency_alert,
      cur_boundary_10001, prev_boundary, mk_jmh_result_row]

/-- C2 witness: latency 10 then 13 is a 30 percent change and yields one
critical regression alert. -/
theorem C2_witness :
    (0 : ℚ) < 13 ∧ (0 : ℚ) < 10 ∧
    (compare_framework "w" w2_cur w2_prev).1.filter
        (fun a => decide (a.metric = "latency_ms")) =
      [{ timestamp := "w", framework := "jackson", alert_type := "regression"
         severity := "critical", metric := "latency_ms", old_value := 10
         new_value := 13, change_percent := 30 }] := by
  refine ⟨by norm_num, by norm_num, ?_⟩
  have h := C2_latency_threshold_classification.1 "w" w2_cur w2_prev 13 10 rfl rfl
    (by norm_num) (by norm_num)
  rw [h]
  norm_num [w2_cur, mk_jmh_result_row]

/-- Every alert the throughput check adds on top of `acc` is a throughput
regression alert. -/
theorem compare_throughput_mem (now : String) (cur prev : ResultRow)
    (acc : List AlertRow) {a : AlertRow}
    (ha : a ∈ (compare_throughput now cur prev acc).1) :
    a ∈ acc ∨ (a.metric = "throughput" ∧ a.alert_type = "regression") := by
  rcases hct : cur.throughput_ops_sec with _ | ct
  · simp only [compare_throughput, hct] at ha
    exact Or.inl ha
  · by_cases h : 0 < ct
    · rcases hpt : prev.throughput_ops_sec with _ | pt
      · simp only [compare_throughput, hct, hpt, if_pos h] at ha
        exact Or.inl ha
      · by_cases h2 : 0 < pt
        · simp only [compare_throughput, hct, hpt, if_pos h, if_pos h2] at ha
          rcases List.mem_append.mp ha with h3 | h3
          · exact Or.inl h3
          · exact Or.inr (throughput_alert_metric h3)
        · simp only [compare_throughput, hct, hpt, if_pos h, if_neg h2,
            List.append_nil] at ha
          exact Or.inl ha
    · simp only [compare_throughput, hct, if_neg h] at ha
      exact Or.inl ha

/-- Provenance of every alert a row comparison emits: it is either a
latency_ms alert or a throughput regression alert. -/
theorem compare_framework_mem (now : String) (cur prev : ResultRow) {a : AlertRow}
    (ha : a ∈ (compare_framework now cur prev).1) :
    a.metric = "latency_ms" ∨
      (a.metric = "throughput" ∧ a.alert_type = "regression") := by
  rcases hcl : cur.latency_ms with _ | cl
  · simp only [compare_framework, hcl] at ha
    simp at ha
  · by_cases h : 0 < cl
    · rcases hpl : prev.latency_ms with _ | pl
      · simp only [compare_framework, hcl, hpl, if_pos h] at ha
        simp at ha
      · simp only [compare_framework, hcl, hpl, if_pos h] at ha
        rcases compare_throughput_mem now cur prev _ ha with h3 | h3
        · left
          by_cases h2 : 0 < pl
          · rw [if_pos h2] at h3
            exact latency_alert_metric h3
          · rw [if_neg h2] at h3
            simp at h3
        · exact Or.inr h3
    · simp only [compare_framework, hcl, if_neg h] at ha
      rcases compare_throughput_mem now cur prev _ ha with h3 | h3
      · simp at h3
      · exact Or.inr h3

/-- When both throughput values are measured and positive, the throughput
alerts of the comparison are exactly the throughput-check alerts. -/
theorem compare_throughput_filter_throughput (now : String) (cur prev : ResultRow)
    (acc : List AlertRow) {c p : ℚ}
    (hc : cur.throughput_ops_sec = some c) (hp : prev.throughput_ops_sec = some p)
    (hcpos : 0 < c) (hppos : 0 < p)
    (hacc : acc.filter (fun a => decide (a.metric = "throughput")) = []) :
    (compare_throughput now cur prev acc).1.filter
        (fun a => decide (a.metric = "throughput")) =
      throughput_alert now cur.framework p c := by
  simp only [compare_throughput, hc, hp, if_pos hcpos, if_pos hppos,
    List.filter_append, hacc, List.nil_append, throughput_alert_filter_self]

/-- C3 counterexample: with both latencies unchanged and throughput rising
from 1000 to 1200, change_percent is 20 > 10, yet the detector emits no
alert at all — in particular no improvement alert, refuting the claimed
mirror improvement branch. -/
theorem C3_counterexample :
    ((1200 : ℚ) - 1000) / 1000 * 100 > 10 ∧
    (compare_framework "t" c3_cur c3_prev).1 = [] := by
  constructor
  · norm_num
  · norm_num [compare_framework, compare_throughput, latency_alert,
      throughput_alert, c3_cur, c3_prev, mk_jmh_result_row]

/-- C3 amended: for a compared throughput pair with both values positive,
change_percent < -10 yields a regression alert (critical below -25,
warning otherwise), and no other throughput alert exists — in particular
the detector never emits a throughput improvement alert, for any rows. -/
theorem C3_throughput_regression_mirror :
    (∀ (now : String) (cur prev : ResultRow) (cl pl c p : ℚ),
        cur.latency_ms = some cl → prev.latency_ms = some pl →
        cur.throughput_ops_sec = some c → prev.throughput_ops_sec = some p →
        0 < c → 0 < p →
        (compare_framework now cur prev).1.filter
            (fun a => decide (a.metric = "throughput")) =
          (if (c - p) / p * 100 < -10 then
            [{ timestamp := now, framework := cur.framework
               alert_type := "regression"
               severity := if (c - p) / p * 100 < -25 then "critical" else "warning"
               metric := "throughput", old_value := p, new_value := c
               change_percent := (c - p) / p * 100 }]
          else [])) ∧
    (∀ (now : String) (cur prev : ResultRow), ∀ a ∈ (compare_framework now cur prev).1,
        a.metric = "throughput" → a.alert_type = "regression") := by
  constructor
  · intro now cur prev cl pl c p hcl hpl hc hp hcpos hppos
    have hacc : ∀ acc : List AlertRow,
        acc.filter (fun a => decide (a.metric = "throughput")) = [] →
        (compare_throughput now cur prev acc).1.filter
            (fun a => decide (a.metric = "throughput")) =
          (if (c - p) / p * 100 < -10 then
            [{ timestamp := now, framework := cur.framework
               alert_type := "regression"
               severity := if (c - p) / p * 100 < -25 then "critical" else "warning"
               metric := "throughput", old_value := p, new_value := c
               change_percent := (c - p) / p * 100 }]
          else []) := by
      intro acc h0
      rw [compare_throughput_filter_throughput now cur prev acc hc hp hcpos hppos h0]
      simp only [throughput_alert]
    by_cases h1 : 0 < cl
    · simp only [compare_framework, hcl, hpl, if_pos h1]
      refine hacc _ ?_
      by_cases h2 : 0 < pl
      · rw [if_pos h2]
        exact latency_alert_filter_throughput _ _ _ _
      · rw [if_neg h2]
        rfl
    · simp only [compare_framework, hcl, if_neg h1]
      exact hacc [] rfl
  · intro now cur prev a ha hmet
    rcases compare_framework_mem now cur prev ha with h | ⟨_, h2⟩
    · rw [hmet] at h
      exact absurd h (by decide)
    · exact h2

/-- C3 witness: throughput 1000 then 700 is a -30 percent change and
yields one critical throughput regression alert (spec scenario 4). -/
theorem C3_witness :
    (0 : ℚ) < 700 ∧ (0 : ℚ) < 1000 ∧
    (compare_framework "w" w3_cur w3_prev).1.filter
        (fun a => decide (a.metric = "throughput")) =
      [{ timestamp := "w", framework := "jackson", alert_type := "regression"
         severity := "critical", metric := "throughput", old_value := 1000
         new_value := 700, change_percent := -30 }] := by
  refine ⟨by norm_num, by norm_num, ?_⟩
  have h := C3_throughput_regression_mirror.1 "w" w3_cur w3_prev 5 5 700 1000
    rfl rfl rfl rfl (by norm_num) (by norm_num)
  rw [h]
  norm_num [w3_cur, mk_jmh_result_row]

/-- When either throughput value is NULL or zero, the throughput check
emits no throughput alert (it either skips or raises before inserting). -/
theorem compare_throughput_zero_filter (now : String) (cur prev : ResultRow)
    (acc : List AlertRow)
    (hacc : acc.filter (fun a => decide (a.metric = "throughput")) = [])
    (hz : cur.throughput_ops_sec = none ∨ cur.throughput_ops_sec = some 0 ∨
      prev.throughput_ops_sec = none ∨ prev.throughput_ops_sec = some 0) :
    (compare_throughput now cur prev acc).1.filter
      (fun a => decide (a.metric = "throughput")) = [] := by
  rcases hz with h | h | h | h
  · simp only [compare_throughput, h]
    exact hacc
  · simp only [compare_throughput, h]
    rw [if_neg (by norm_num : ¬ (0 : ℚ) < 0)]
    exact hacc
  · rcases hct : cur.throughput_ops_sec with _ | ct
    · simp only [compare_throughput, hct]
      exact hacc
    · by_cases h1 : 0 < ct
      · simp only [compare_throughput, hct, h, if_pos h1]
        exact hacc
      · simp only [compare_throughput, hct, if_neg h1]
        exact hacc
  · rcases hct : cur.throughput_ops_sec with _ | ct
    · simp only [compare_throughput, hct]
      exact hacc
    · by_cases h1 : 0 < ct
      · simp only [compare_throughput, hct, h, if_pos h1]
        rw [if_neg (by norm_num : ¬ (0 : ℚ) < 0), List.append_nil]
        exact hacc
      · simp only [compare_throughput, hct, if_neg h1]
        exact hacc

/-- C5: if either side of a metric is zero or not measured (NULL), the
comparison emits no alert for that metric of that framework — the
positivity guard skips the zero cases and the NULL cases abort before any
alert for that metric is inserted, so no division against a 0 or missing
baseline ever produces an alert. -/
theorem C5_zero_or_missing_no_alert :
    ∀ (now : String) (cur prev : ResultRow),
      ((cur.latency_ms = none ∨ cur.latency_ms = some 0 ∨
        prev.latency_ms = none ∨ prev.latency_ms = some 0) →
        (compare_framework now cur prev).1.filter
          (fun a => decide (a.metric = "latency_ms")) = []) ∧
      ((cur.throughput_ops_sec = none ∨ cur.throughput_ops_sec = some 0 ∨
        prev.throughput_ops_sec = none ∨ prev.throughput_ops_sec = some 0) →
        (compare_framework now cur prev).1.filter
          (fun a => decide (a.metric = "throughput")) = []) := by
  intro now cur prev
  constructor
  · intro hz
    rcases hz with h | h | h | h
    · simp only [compare_framework, h, List.filter_nil]
    · simp only [compare_framework, h]
      rw [if_neg (by norm_num : ¬ (0 : ℚ) < 0), compare_throughput_filter_latency]
      rfl
    · rcases hcl : cur.latency_ms with _ | cl
      · simp only [compare_framework, hcl, List.filter_nil]
      · by_cases h1 : 0 < cl
        · simp only [compare_framework, hcl, h, if_pos h1, List.filter_nil]
        · simp only [compare_framework, hcl, if_neg h1]
          rw [compare_throughput_filter_latency]
          rfl
    · rcases hcl : cur.latency_ms with _ | cl
      · simp only [compare_framework, hcl, List.filter_nil]
      · by_cases h1 : 0 < cl
        · simp only [compare_framework, hcl, h, if_pos h1]
          rw [compare_throughput_filter_latency,
            if_neg (by norm_num : ¬ (0 : ℚ) < 0)]
          rfl
        · simp only [compare_framework, hcl, if_neg h1]
          rw [compare_throughput_filter_latency]
          rfl
  · intro hz
    rcases hcl : cur.latency_ms with _ | cl
    · simp only [compare_framework, hcl, List.filter_nil]
    · by_cases h1 : 0 < cl
      · rcases hpl : prev.latency_ms with _ | pl
        · simp only [compare_framework, hcl, hpl, if_pos h1, List.filter_nil]
        · simp only [compare_framework, hcl, hpl, if_pos h1]
          refine compare_throughput_zero_filter now cur prev _ ?_ hz
          by_cases h2 : 0 < pl
          · rw [if_pos h2]
            exact latency_alert_filter_throughput _ _ _ _
          · rw [if_neg h2]
            rfl
      · simp only [compare_framework, hcl, if_neg h1]
        exact compare_throughput_zero_filter now cur prev [] rfl hz

/-- C5 witness: a current row with latency measured as 0 and a NULL
throughput column produces no latency alert and no throughput alert. -/
theorem C5_witness :
    (compare_framework "w" w5_cur w5_prev).1.filter
        (fun a => decide (a.metric = "latency_ms")) = [] ∧
    (compare_framework "w" w5_cur w5_prev).1.filter
        (fun a => decide (a.metric = "throughput")) = [] :=
  ⟨(C5_zero_or_missing_no_alert "w" w5_cur w5_prev).1 (Or.inr (Or.inl rfl)),
    (C5_zero_or_missing_no_alert "w" w5_cur w5_prev).2 (Or.inl rfl)⟩

/-- C4 amended: when regression detection raises, the commit at the end of
record_benchmark_run never runs, so the committed database — and hence the
durable database after the connection closes — is unchanged: the run and
metric rows inserted during the call are rolled back, because metrics
persistence and alert emission share the one transaction. -/
theorem C4_detector_error_rolls_back :
    ∀ (now : String) (conn : Conn) (d : RawDoc) (e : PyErr),
      (record_benchmark_run now conn d).2 = Except.error e →
      ((record_benchmark_run now conn d).1).committed = conn.committed ∧
      conn_close ((record_benchmark_run now conn d).1) = conn_close conn := by
  intro now conn d e h
  simp only [record_benchmark_run] at h ⊢
  split at h
  · simp at h
  · exact ⟨rfl, rfl⟩

/-- C4 counterexample: recording run B (jackson latency 13) after run A
(jackson latency 10) inserts the run and metric rows of B into the
transaction, but detection then raises a TypeError on the NULL throughput
column, so the rows do not survive: after the connection closes, only run
A and its single metric row are stored. -/
theorem C4_counterexample :
    rec_B.2 = Except.error PyErr.typeError ∧
    rec_B.1.pending.runs.length = 2 ∧
    rec_B.1.pending.results.length = 2 ∧
    (conn_close rec_B.1).runs.length = 1 ∧
    (conn_close rec_B.1).results.length = 1 := by
  norm_num [rec_B, conn_A, docA, docB, intDoc, emptyConn, emptyDB, conn_close,
    record_benchmark_run, determine_run_type, successful_count, next_run_id,
    record_framework_results, jmh_row, integration_row, emptyIntegrationSummary,
    emptyMetadata, emptyScenariosDict, emptyScenario, emptyScenSummary,
    emptyPercentiles, detect_regressions, find_previous_comparable_run,
    sql_max_id, detect_loop, compare_framework, compare_throughput,
    latency_alert, throughput_alert, List.filter, List.find?]

/-- C4 witness: the rollback theorem applied to the concrete failing
scenario of runs A and B. -/
theorem C4_witness :
    ((record_benchmark_run "t2" conn_A docB).1).committed = conn_A.committed ∧
    conn_close ((record_benchmark_run "t2" conn_A docB).1) = conn_close conn_A := by
  refine C4_detector_error_rolls_back "t2" conn_A docB PyErr.typeError ?_
  norm_num [conn_A, docA, docB, intDoc, emptyConn, emptyDB,
    record_benchmark_run, determine_run_type, successful_count, next_run_id,
    record_framework_results, jmh_row, integration_row, emptyIntegrationSummary,
    emptyMetadata, emptyScenariosDict, emptyScenario, emptyScenSummary,
    emptyPercentiles, detect_regressions, find_previous_comparable_run,
    sql_max_id, detect_loop, compare_framework, compare_throughput,
    latency_alert, throughput_alert, List.filter, List.find?]

/-- C8 counterexample: in the A-then-B scenario the single alert the
detector creates has severity critical, not warning (the 30 percent
change exceeds the 25 percent critical threshold), and after the failed
record of run B closes nothing is stored in the alert log at all. -/
theorem C8_counterexample :
    rec_B.1.pending.alerts.map (fun a => a.severity) = ["critical"] ∧
    rec_B.1.pending.alerts.filter (fun a => decide (a.severity = "warning")) = [] ∧
    (conn_close rec_B.1).alerts = [] := by
  norm_num [rec_B, conn_A, docA, docB, intDoc, emptyConn, emptyDB, conn_close,
    record_benchmark_run, determine_run_type, successful_count, next_run_id,
    record_framework_results, jmh_row, integration_row, emptyIntegrationSummary,
    emptyMetadata, emptyScenariosDict, emptyScenario, emptyScenSummary,
    emptyPercentiles, detect_regressions, find_previous_comparable_run,
    sql_max_id, detect_loop, compare_framework, compare_throughput,
    latency_alert, throughput_alert, List.filter, List.find?]
  decide

/-- C8 amended: inserting run A (integration, jackson latency 10.0) and
then run B (integration, jackson latency 13.0) makes the detector insert
exactly one alert — framework jackson, metric latency_ms, alert_type
regression, change_percent 30.0 — with severity critical because 30 > 25;
the throughput comparison then raises a TypeError on the NULL throughput
column, so the commit never runs and run B together with the alert is
rolled back when the connection closes. -/
theorem C8_scenario_one_critical_alert :
    rec_B.1.pending.alerts =
      [{ timestamp := "t2", framework := "jackson", alert_type := "regression"
         severity := "critical", metric := "latency_ms", old_value := 10
         new_value := 13, change_percent := 30 }] ∧
    rec_B.2 = Except.error PyErr.typeError ∧
    (conn_close rec_B.1).alerts = [] := by
  norm_num [rec_B, conn_A, docA, docB, intDoc, emptyConn, emptyDB, conn_close,
    record_benchmark_run, determine_run_type, successful_count, next_run_id,
    record_framework_results, jmh_row, integration_row, emptyIntegrationSummary,
    emptyMetadata, emptyScenariosDict, emptyScenario, emptyScenSummary,
    emptyPercentiles, detect_regressions, find_previous_comparable_run,
    sql_max_id, detect_loop, compare_framework, compare_throughput,
    latency_alert, throughput_alert, List.filter, List.find?]

theorem le_foldr_max {l : List Nat} {a : Nat} (h : a ∈ l) : a ≤ l.foldr max 0 := by
  induction l with
  | nil => simp at h
  | cons x xs ih =>
    rcases List.mem_cons.mp h with h1 | h1
    · subst h1
      exact le_max_left _ _
    · exact le_trans (ih h1) (le_max_right _ _)

/-- C6 counterexample: a document carrying both microbenchmark data (under
the jmh_results key) and integration data (under the results key) — both
of which the ingestion itself turns into metric rows — is classified jmh
(microbenchmark), not complete (combined), because the combined branch
tests the integration_results key while the integration branch tests the
results key. -/
theorem C6_counterexample :
    determine_run_type docBoth = "jmh" ∧
    determine_run_type docBoth ≠ "complete" ∧
    (record_framework_results 1 docBoth).map (fun r => r.result_type) =
      ["jmh", "integration"] := by
  refine ⟨rfl, by decide, ?_⟩
  simp [record_framework_results, docBoth, jmh_row, integration_row]

/-- C6 amended: classification depends only on the presence of the three
tested top-level keys, with this branch order — jmh_results together with
integration_results gives complete; otherwise jmh_results gives jmh even
when a results key is also present; otherwise results gives integration;
otherwise unknown, even when only integration_results is present. An
unknown-shaped document is still recorded: record returns the new run id
without error, commits a run row with run_type unknown and zero counted
frameworks, and adds no metric rows and no alerts. -/
theorem C6_run_kind_classification :
    (∀ d d2 : RawDoc,
        d.jmh_results.isSome = d2.jmh_results.isSome →
        d.integration_results_present = d2.integration_results_present →
        d.results.isSome = d2.results.isSome →
        determine_run_type d = determine_run_type d2) ∧
    (∀ d : RawDoc, d.jmh_results.isSome = true →
        d.integration_results_present = true →
        determine_run_type d = "complete") ∧
    (∀ d : RawDoc, d.jmh_results.isSome = true →
        d.integration_results_present = false →
        determine_run_type d = "jmh") ∧
    (∀ d : RawDoc, d.jmh_results.isSome = false →
        d.results.isSome = true → determine_run_type d = "integration") ∧
    (∀ d : RawDoc, d.jmh_results.isSome = false → d.results.isSome = false →
        determine_run_type d = "unknown") ∧
    (∀ (now : String) (conn : Conn),
        (∀ r ∈ conn.pending.results, ∃ br ∈ conn.pending.runs, r.run_id = br.id) →
        (record_benchmark_run now conn docUnknown).2 =
          Except.ok (next_run_id conn.pending) ∧
        ((record_benchmark_run now conn docUnknown).1).committed =
          { runs := conn.pending.runs ++
              [{ id := next_run_id conn.pending, timestamp := now
                 run_type := "unknown", total_frameworks := 0
                 successful_frameworks := 0, duration_seconds := 0 }]
            results := conn.pending.results
            alerts := conn.pending.alerts }) := by
  refine ⟨?_, ?_, ?_, ?_, ?_, ?_⟩
  · intro d d2 h1 h2 h3
    simp only [determine_run_type, h1, h2, h3]
  · intro d h1 h2
    simp [determine_run_type, h1, h2]
  · intro d h1 h2
    simp [determine_run_type, h1, h2]
  · intro d h1 h3
    simp [determine_run_type, h1, h3]
  · intro d h1 h3
    simp [determine_run_type, h1, h3]
  · intro now conn hfk
    have hfilter2 : conn.pending.results.filter
        (fun r => decide (r.run_id = next_run_id conn.pending)) = [] := by
      rw [List.filter_eq_nil_iff]
      intro r hr
      simp only [decide_eq_true_eq]
      obtain ⟨br, hbr, heq⟩ := hfk r hr
      have hle : br.id ≤ (conn.pending.runs.map (fun x => x.id)).foldr max 0 :=
        le_foldr_max (List.mem_map_of_mem _ hbr)
      rw [heq]
      unfold next_run_id
      omega
    have hdet : ∀ dbruns : List RunRow, detect_regressions now
        { runs := dbruns, results := conn.pending.results
          alerts := conn.pending.alerts } (next_run_id conn.pending) = ([], none) := by
      intro dbruns
      simp only [detect_regressions]
      rw [hfilter2]
      split <;> rfl
    have hrec : record_benchmark_run now conn docUnknown =
        (⟨{ runs := conn.pending.runs ++
              [{ id := next_run_id conn.pending, timestamp := now
                 run_type := "unknown", total_frameworks := 0
                 successful_frameworks := 0, duration_seconds := 0 }]
            results := conn.pending.results
            alerts := conn.pending.alerts },
          { runs := conn.pending.runs ++
              [{ id := next_run_id conn.pending, timestamp := now
                 run_type := "unknown", total_frameworks := 0
                 successful_frameworks := 0, duration_seconds := 0 }]
            results := conn.pending.results
            alerts := conn.pending.alerts }⟩,
          Except.ok (next_run_id conn.pending)) := by
      simp only [record_benchmark_run, docUnknown, emptyMetadata,
        determine_run_type, successful_count, record_framework_results,
        Option.getD_none, Option.isSome_none, Bool.false_and, Bool.and_false,
        if_false, List.length_nil, List.filter_nil, List.map_nil,
        List.append_nil, List.nil_append]
      rw [hdet]
      simp
    rw [hrec]
    exact ⟨rfl, rfl⟩

/-- C6 witness: the amended classification applied to the document with
both shapes present, and the unknown-document recording guarantee applied
to the empty connection. -/
theorem C6_witness :
    determine_run_type docBoth = "jmh" ∧
    (record_benchmark_run "w" emptyConn docUnknown).2 =
      Except.ok (next_run_id emptyConn.pending) ∧
    ((record_benchmark_run "w" emptyConn docUnknown).1).committed =
      { runs := emptyConn.pending.runs ++
          [{ id := next_run_id emptyConn.pending, timestamp := "w"
             run_type := "unknown", total_frameworks := 0
             successful_frameworks := 0, duration_seconds := 0 }]
        results := emptyConn.pending.results
        alerts := emptyConn.pending.alerts } := by
  refine ⟨C6_run_kind_classification.2.2.1 docBoth rfl rfl, ?_, ?_⟩
  · exact (C6_run_kind_classification.2.2.2.2.2 "w" emptyConn
      (by simp [emptyConn, emptyDB])).1
  · exact (C6_run_kind_classification.2.2.2.2.2 "w" emptyConn
      (by simp [emptyConn, emptyDB])).2

/-- C7: ingestion of a microbenchmark entry uses the roundtrip operation
when present and otherwise falls back to serialize (a fixed priority),
and the JMH parser converts a throughput score (unit ops/s, score > 0) to
latency_ms = 1000 / score while passing a score in any other (time) unit
through unchanged. -/
theorem C7_micro_selection_and_conversion :
    (∀ (run_id : Nat) (framework : String) (m : MicroEntry) (op : MicroOp),
        m.roundtrip = some op →
        (jmh_row run_id framework m).latency_ms = some (op.latency_ms.getD 0) ∧
        (jmh_row run_id framework m).throughput_ops_sec =
          some (op.throughput_ops_per_sec.getD 0)) ∧
    (∀ (run_id : Nat) (framework : String) (m : MicroEntry) (op : MicroOp),
        m.roundtrip = none → m.serialize = some op →
        (jmh_row run_id framework m).latency_ms = some (op.latency_ms.getD 0) ∧
        (jmh_row run_id framework m).throughput_ops_sec =
          some (op.throughput_ops_per_sec.getD 0)) ∧
    (∀ (pm : PrimaryMetric) (s : ℚ),
        pm.scoreUnit = some "ops/s" → pm.score = some s → 0 < s →
        (parse_primary_metric pm).latency_ms = 1000 / s ∧
        (parse_primary_metric pm).throughput_ops_per_sec = s) ∧
    (∀ (pm : PrimaryMetric) (u : String) (s : ℚ),
        pm.scoreUnit = some u → u ≠ "ops/s" → pm.score = some s →
        (parse_primary_metric pm).latency_ms = s) := by
  refine ⟨?_, ?_, ?_, ?_⟩
  · intro run_id framework m op h
    simp [jmh_row, h]
  · intro run_id framework m op h1 h2
    simp [jmh_row, h1, h2]
  · intro pm s hu hs hpos
    simp [parse_primary_metric, hu, hs, hpos]
  · intro pm u s hu hne hs
    simp [parse_primary_metric, hu, hs, hne]

/-- C7 witness: a roundtrip entry with latency 3 is selected over the
serialize entry, and an ops/s score of 200 converts to 5 ms latency. -/
theorem C7_witness :
    (jmh_row 1 "jackson" w7_entry).latency_ms = some 3 ∧
    (parse_primary_metric w7_pm).latency_ms = 5 ∧
    (parse_primary_metric w7_pm).throughput_ops_per_sec = 200 := by
  have h1 := C7_micro_selection_and_conversion.1 1 "jackson" w7_entry
    { latency_ms := some 3, throughput_ops_per_sec := some 4 } rfl
  have h3 := C7_micro_selection_and_conversion.2.2.1 w7_pm 200 rfl rfl (by norm_num)
  refine ⟨?_, ?_, h3.2⟩
  · rw [h1.1]
    rfl
  · rw [h3.1]
    norm_num

/-- C9: for a series of at least 2 values the trend analyzer splits at the
midpoint, takes each half's mean, computes
trend_change = (secondHalfMean - firstHalfMean) / firstHalfMean * 100, and
classifies: absolute change below 5 is Stable, otherwise a rising latency
series is Worsening and a rising throughput series is Improving; the
latency series [10,10,10,20,20,20] yields change 100 and Worsening. -/
theorem C9_trend_midpoint_split :
    (∀ values : List ℚ, 2 ≤ values.length →
        trend_change values =
          (mean (values.drop (values.length / 2)) -
              mean (values.take (values.length / 2))) /
            mean (values.take (values.length / 2)) * 100 ∧
        (|trend_change values| < 5 →
          trend_direction "latency_ms" values = some "Stable" ∧
          trend_direction "throughput" values = some "Stable") ∧
        (¬ |trend_change values| < 5 → 0 < trend_change values →
          trend_direction "latency_ms" values = some "Worsening" ∧
          trend_direction "throughput" values = some "Improving")) ∧
    trend_change [10, 10, 10, 20, 20, 20] = 100 ∧
    trend_direction "latency_ms" [10, 10, 10, 20, 20, 20] = some "Worsening" := by
  refine ⟨?_, ?_, ?_⟩
  · intro values h
    have ht : (values.take (values.length / 2)).length = values.length / 2 := by
      rw [List.length_take]
      exact Nat.min_eq_left (Nat.div_le_self _ _)
    have hd : (values.drop (values.length / 2)).length =
        values.length - values.length / 2 := List.length_drop _ _
    refine ⟨?_, ?_, ?_⟩
    · unfold trend_change trend_first_half_avg trend_second_half_avg mean
      rw [ht, hd]
    · intro h5
      constructor
      · unfold trend_direction trend_label
        rw [if_pos h, if_pos h5]
      · unfold trend_direction trend_label
        rw [if_pos h, if_pos h5]
    · intro h5 hpos
      constructor
      · unfold trend_direction trend_label
        rw [if_pos h, if_neg h5, if_pos hpos,
          if_pos (show ("latency_ms" : String) = "latency_ms" from rfl)]
      · unfold trend_direction trend_label
        rw [if_pos h, if_neg h5, if_pos hpos,
          if_neg (show ¬ ("throughput" : String) = "latency_ms" by decide)]
  · norm_num [trend_change, trend_first_half_avg, trend_second_half_avg]
  · norm_num [trend_direction, trend_label, trend_change,
      trend_first_half_avg, trend_second_half_avg]

/-- C9 witness: the midpoint-split equality applied to the two-point
series [3, 9]. -/
theorem C9_witness :
    2 ≤ ([3, 9] : List ℚ).length ∧
    trend_change [3, 9] =
      (mean (([3, 9] : List ℚ).drop 1) - mean (([3, 9] : List ℚ).take 1)) /
        mean (([3, 9] : List ℚ).take 1) * 100 := by
  constructor
  · norm_num
  · have h := (C9_trend_midpoint_split.1 [3, 9] (by norm_num)).1
    simpa using h

/-- C10: the trend query filters records only by framework name and
timestamp window, never by result_type — rewriting the result_type of
every stored row changes neither the selected rows nor the value series,
and a database holding a microbenchmark row and an integration row of the
same framework pools both values into one latency series. -/
theorem C10_trend_pools_result_kinds :
    (∀ (db : DB) (framework cutoff t : String),
        trend_select
          { db with results := db.results.map (fun r => { r with result_type := t }) }
          framework cutoff = trend_select db framework cutoff) ∧
    (∀ (db : DB) (framework cutoff t metric : String),
        trend_values metric (trend_rows
          { db with results := db.results.map (fun r => { r with result_type := t }) }
          framework cutoff) =
          trend_values metric (trend_rows db framework cutoff)) ∧
    trend_values "latency_ms" (trend_rows mixedDb "jackson" "") = [5, 7] ∧
    mixedDb.results.map (fun r => r.result_type) = ["jmh", "integration"] := by
  have h1 : ∀ (db : DB) (framework cutoff t : String),
      trend_select
        { db with results := db.results.map (fun r => { r with result_type := t }) }
        framework cutoff = trend_select db framework cutoff := by
    intro db framework cutoff t
    simp only [trend_select, List.filterMap_map]
    rfl
  refine ⟨h1, ?_, ?_, ?_⟩
  · intro db framework cutoff t metric
    unfold trend_rows
    rw [h1]
  · decide
  · decide
